import Mathlib

set_option maxRecDepth 100000

/-!
# Verification of the vehicle tachograph log decoder (`src/App.tsx`)

Shallow embedding of the decoder implemented in `src/src/App.tsx` of the
`vehicle-analytics` repository.  Buffers are modelled as `List Char`
(JavaScript strings are sequences of UTF-16 code units; the decoder only
slices and compares characters, so a character list is a faithful model).
JavaScript's `parseInt(·, 10)` and `parseFloat` are modelled as partial
parsers returning `Option`; `NaN` corresponds to `none`, and the source's
`x || 0` fallback maps `none` (and `0` / `-0`, which are fixed points) to `0`.
Numeric semantics is modelled exactly over `ℚ`: every value the decoder
manipulates is a small decimal for which IEEE-754 doubles are exact or
round to the same rendered digits, except for ties at the rounding digit
of `toFixed`, which no claim exercises.  `console.log`/`console.error`
calls in the source are side effects with no influence on the produced
data and are not modelled.
-/

namespace VehicleAnalytics

/-- The whitespace characters recognised by JavaScript's `String.trim`,
`parseInt` and `parseFloat` (ASCII subset; the Unicode space characters
play no role in the fixed-width numeric fields the decoder slices). -/
def jsWhitespace (c : Char) : Bool :=
  c = ' ' || c = '\t' || c = '\n' || c = '\r' || c = '\x0b' || c = '\x0c'

/-- JavaScript `String.prototype.trim`: drop leading and trailing whitespace. -/
def jsTrim (s : List Char) : List Char :=
  ((s.dropWhile jsWhitespace).reverse.dropWhile jsWhitespace).reverse

/-- `text.replace(/\r\n/g, '\n')` (App.tsx:484): replace every `\r\n` pair,
left to right, by `\n`. -/
def replaceCRLF : List Char → List Char
  | '\r' :: '\n' :: rest => '\n' :: replaceCRLF rest
  | c :: rest => c :: replaceCRLF rest
  | [] => []

def isDigitChar (c : Char) : Bool := '0' ≤ c && c ≤ '9'

def digitVal (c : Char) : Nat := c.toNat - 48

/-- Value of a list of decimal digit characters, most significant first. -/
def natOfDigits (ds : List Char) : Nat :=
  ds.foldl (fun a c => a * 10 + digitVal c) 0

/-- JavaScript `parseInt(s, 10)`: skip leading whitespace, optional sign,
then the longest prefix of decimal digits; `none` models `NaN` (no digits).
All integers the decoder parses are below `2^53`, so the double-precision
result is exact. -/
def parseIntJS (s : List Char) : Option Int :=
  let s1 := s.dropWhile jsWhitespace
  let signed : Int × List Char :=
    match s1 with
    | '-' :: rest => (-1, rest)
    | '+' :: rest => (1, rest)
    | _ => (1, s1)
  let ds := signed.2.takeWhile isDigitChar
  if ds = [] then none else some (signed.1 * (natOfDigits ds : Int))

/-- Exponent part of a JS number literal: `e`/`E` already consumed; a
malformed exponent (no digits) is ignored, i.e. contributes `0`. -/
def parseExpJS (s : List Char) : Int :=
  let signed : Int × List Char :=
    match s with
    | '-' :: rest => (-1, rest)
    | '+' :: rest => (1, rest)
    | _ => (1, s)
  let ds := signed.2.takeWhile isDigitChar
  if ds = [] then 0 else signed.1 * (natOfDigits ds : Int)

/-- JavaScript `parseFloat`: skip leading whitespace, optional sign, longest
prefix matching `digits [. digits]` or `. digits`, optional exponent.
`none` models `NaN`.  (The `Infinity` keyword needs 8 characters and cannot
occur in the ≤ 6-character slices the decoder parses as floats.) -/
def parseFloatJS (s : List Char) : Option ℚ :=
  let s1 := s.dropWhile jsWhitespace
  let signed : ℚ × List Char :=
    match s1 with
    | '-' :: rest => (-1, rest)
    | '+' :: rest => (1, rest)
    | _ => (1, s1)
  let intDs := signed.2.takeWhile isDigitChar
  let rest1 := signed.2.dropWhile isDigitChar
  let fracPart : List Char × List Char :=
    match rest1 with
    | '.' :: r => (r.takeWhile isDigitChar, r.dropWhile isDigitChar)
    | _ => ([], rest1)
  if intDs = [] ∧ fracPart.1 = [] then none
  else
    let mant : ℚ :=
      (natOfDigits intDs : ℚ) + (natOfDigits fracPart.1 : ℚ) / (10 : ℚ) ^ fracPart.1.length
    let e : Int :=
      match fracPart.2 with
      | 'e' :: r => parseExpJS r
      | 'E' :: r => parseExpJS r
      | _ => 0
    some (signed.1 * mant * (10 : ℚ) ^ e)

/-- A JavaScript comparison chain on a possibly-`NaN` integer (e.g.
`parseInt(x) > 0 && parseInt(x) <= 12`): every comparison against `NaN` is
false, so the chain holds exactly when the parse succeeded and the value
satisfies the predicate. -/
def cmpSome (o : Option Int) (p : Int → Prop) [DecidablePred p] : Bool :=
  match o with
  | some m => decide (p m)
  | none => false

/-- The `x || 0` idiom on an integer-valued expression: `NaN` (`none`) and
`0`/`-0` all yield `0`. -/
def orZeroInt (o : Option Int) : Int := o.getD 0

/-- The `x || 0` idiom on a float-valued expression. -/
def orZeroQ (o : Option ℚ) : ℚ := o.getD 0

def natDigitChar (n : Nat) : Char := Char.ofNat (48 + n)

/-- Decimal digits of `n`, most significant first (structural on a fuel
argument so that it reduces in the kernel; `n + 1` iterations always
suffice since `n` has at most `n + 1` digits). -/
def natToCharsGo : Nat → Nat → List Char → List Char
  | 0, _, acc => acc
  | fuel + 1, n, acc =>
    let acc' := natDigitChar (n % 10) :: acc
    if n / 10 = 0 then acc' else natToCharsGo fuel (n / 10) acc'

def natToChars (n : Nat) : List Char := natToCharsGo (n + 1) n []

/-- JavaScript decimal rendering of an integer (template-string coercion). -/
def intToChars (i : Int) : List Char :=
  if i < 0 then '-' :: natToChars i.natAbs else natToChars i.toNat

/-- Left-pad with `c` to length `len`. -/
def padLeft (c : Char) (len : Nat) (s : List Char) : List Char :=
  List.replicate (len - s.length) c ++ s

/-- `toFixed f` on a non-negative rational: round half away from zero at the
`f`-th decimal (the ECMAScript `toFixed` tie rule) and print with exactly
`f` digits after the point. -/
def toFixedNN (f : Nat) (q : ℚ) : List Char :=
  let scaled : ℚ := q * (10 : ℚ) ^ f + 1 / 2
  let n : Nat := scaled.num.toNat / scaled.den
  let ds := padLeft '0' (f + 1) (natToChars n)
  if f = 0 then ds
  else ds.take (ds.length - f) ++ '.' :: ds.drop (ds.length - f)

/-- JavaScript `Number.prototype.toFixed f`: a negative value is rendered
as `-` followed by the rendering of its negation (so values in `(-ε, 0)`
that round to zero print as `-0.0…`, exactly as in JS). -/
def toFixedQ (f : Nat) (q : ℚ) : List Char :=
  if q < 0 then '-' :: toFixedNN f (-q) else toFixedNN f q

/-- `data.substring(pos, pos + len)` on an in-range or clamped slice:
`len` characters starting at `pos`, best-effort when the buffer is short. -/
def slice (s : List Char) (pos len : Nat) : List Char :=
  (s.drop pos).take len

/-!
## Field transforms (`vehicleInfoFields` / `driveRecordFields`, App.tsx:56-285)

Each `format` closure of the two schema tables is translated to a named
function.  The Korean field names of the source are given in the comments.
-/

/-- `value.replace(/#/g, '').trim()` — header identity fields
(운행기록장치모델명, 차대번호, 자동차등록번호, 운전자코드). -/
def stripHashTrim (v : List Char) : List Char :=
  jsTrim (v.filter (fun c => c ≠ '#'))

/-- 운송사업자등록번호 (App.tsx:83-91): exactly 10 characters are reformatted
as 3-2-5 groups joined by hyphens; any other length passes through. -/
def formatRegNumber (v : List Char) : List Char :=
  if v.length = 10 then
    v.take 3 ++ '-' :: (slice v 3 2 ++ '-' :: v.drop 5)
  else v

/-- 정보발생일시 (App.tsx:105-137): a 14-character `YYMMDDhhmmssff` string is
split into 2-character components, each clamped independently, and printed
as `20YY-MM-DD hh:mm:ss.ff`; any other length passes through. -/
def formatTimestamp (v : List Char) : List Char :=
  if v.length = 14 then
    let year := slice v 0 2
    let month := slice v 2 2
    let day := slice v 4 2
    let hour := slice v 6 2
    let minute := slice v 8 2
    let second := slice v 10 2
    let ms := slice v 12 2
    let validMonth :=
      if cmpSome (parseIntJS month) (fun m => 0 < m ∧ m ≤ 12) then month else '0' :: ['1']
    let validDay :=
      if cmpSome (parseIntJS day) (fun d => 0 < d ∧ d ≤ 31) then day else '0' :: ['1']
    let validHour :=
      if cmpSome (parseIntJS hour) (fun h => h < 24) then hour else '0' :: ['0']
    let validMinute :=
      if cmpSome (parseIntJS minute) (fun m => m < 60) then minute else '0' :: ['0']
    let validSecond :=
      if cmpSome (parseIntJS second) (fun s => s < 60) then second else '0' :: ['0']
    '2' :: '0' :: year ++ '-' :: validMonth ++ '-' :: validDay ++
      ' ' :: validHour ++ ':' :: validMinute ++ ':' :: validSecond ++ '.' :: ms
  else v

/-- 차량속도 (App.tsx:142-156): integer parse with 0 fallback; a value above
200 km/h is re-derived from the first 2 characters; unit ` km/h`. -/
def formatSpeed (v : List Char) : List Char :=
  let speed := orZeroInt (parseIntJS v)
  let validSpeed := if 200 < speed then orZeroInt (parseIntJS (slice v 0 2)) else speed
  intToChars validSpeed ++ (" km/h".toList)

/-- 분당엔진회전수 (App.tsx:161-175): integer parse with 0 fallback; above
10000 RPM re-derived from the first 3 characters; unit ` RPM`. -/
def formatRpm (v : List Char) : List Char :=
  let rpm := orZeroInt (parseIntJS v)
  let validRpm := if 10000 < rpm then orZeroInt (parseIntJS (slice v 0 3)) else rpm
  intToChars validRpm ++ (" RPM".toList)

/-- 브레이크신호 (App.tsx:180): the literal `"1"` maps to `ON`, all else `OFF`. -/
def formatBrake (v : List Char) : List Char :=
  if v = ['1'] then 'O' :: ['N'] else 'O' :: 'F' :: ['F']

/-- X좌표 / longitude (App.tsx:185-202): integer parse divided by 1 000 000
(0 on failure); outside ±180 re-derived from the first 3 characters
divided by 10; printed with `toFixed(6)`. -/
def formatCoordX (v : List Char) : List Char :=
  let coord := orZeroQ ((parseIntJS v).map (fun n => (n : ℚ) / 1000000))
  let coord' :=
    if 180 < coord ∨ coord < -180 then
      orZeroQ ((parseIntJS (slice v 0 3)).map (fun n => (n : ℚ) / 10))
    else coord
  toFixedQ 6 coord'

/-- Y좌표 / latitude (App.tsx:207-224): as longitude but with bound ±90 and
fallback from the first 2 characters. -/
def formatCoordY (v : List Char) : List Char :=
  let coord := orZeroQ ((parseIntJS v).map (fun n => (n : ℚ) / 1000000))
  let coord' :=
    if 90 < coord ∨ coord < -90 then
      orZeroQ ((parseIntJS (slice v 0 2)).map (fun n => (n : ℚ) / 10))
    else coord
  toFixedQ 6 coord'

/-- GPS방위각 (App.tsx:229): integer parse with 0 fallback, suffix `°`. -/
def formatHeading (v : List Char) : List Char :=
  intToChars (orZeroInt (parseIntJS v)) ++ ['°']

/-- 가속도ΔVx (App.tsx:234-254): float parse divided by 10 with 0 fallback;
a leading `-` re-parses the tail as a magnitude and negates (taking
precedence over the bound check); otherwise magnitude above 50 re-derives
from the first 2 characters; printed with `toFixed(1)` and ` m/s²`. -/
def formatAccelVx (v : List Char) : List Char :=
  let accel := orZeroQ ((parseFloatJS v).map (fun q => q / 10))
  let accel' :=
    if v.head? = some '-' then
      orZeroQ ((parseFloatJS (v.drop 1)).map (fun q => -q / 10))
    else if 50 < |accel| then
      orZeroQ ((parseFloatJS (slice v 0 2)).map (fun q => q / 10))
    else accel
  toFixedQ 1 accel' ++ (" m/s²".toList)

/-- 가속도ΔVy (App.tsx:259-279): a second closure in the schema whose body is
character-for-character the same as the ΔVx one. -/
def formatAccelVy (v : List Char) : List Char :=
  let accel := orZeroQ ((parseFloatJS v).map (fun q => q / 10))
  let accel' :=
    if v.head? = some '-' then
      orZeroQ ((parseFloatJS (v.drop 1)).map (fun q => -q / 10))
    else if 50 < |accel| then
      orZeroQ ((parseFloatJS (slice v 0 2)).map (fun q => q / 10))
    else accel
  toFixedQ 1 accel' ++ (" m/s²".toList)

/-- 일일주행거리 / 누적주행거리 rendering (App.tsx:434,439,574,575):
`` `${parseInt(raw, 10) || 0} km` ``. -/
def formatKm (v : List Char) : List Char :=
  intToChars (orZeroInt (parseIntJS v)) ++ (" km".toList)

/-- Declared byte lengths of `vehicleInfoFields` (App.tsx:56-98). -/
def vehicleInfoFieldLengths : List Nat := [20, 17, 2, 9, 10, 18]

/-- `vehicleInfoLength` (App.tsx:288-291): sum of the header field lengths. -/
def vehicleInfoLength : Nat := vehicleInfoFieldLengths.sum

/-- Declared byte lengths of `driveRecordFields` (App.tsx:101-285). -/
def driveRecordFieldLengths : List Nat := [14, 3, 4, 1, 9, 9, 3, 6, 6, 2]

/-- `driveRecordLength` (App.tsx:294-297): sum of the sample field lengths. -/
def driveRecordLength : Nat := driveRecordFieldLengths.sum

/-!
## Records and the assembler (`parseFixedPositionData`, `parseDriveRecord`,
`parseFile`, App.tsx:390-635)
-/

/-- `VehicleInfo` (App.tsx:13-20).  Field names romanised:
`deviceModelName` 운행기록장치모델명, `chassisNumber` 차대번호,
`vehicleType` 자동차유형, `plateNumber` 자동차등록번호,
`operatorRegNumber` 운송사업자등록번호, `driverCode` 운전자코드. -/
structure VehicleInfo where
  deviceModelName : List Char
  chassisNumber : List Char
  vehicleType : List Char
  plateNumber : List Char
  operatorRegNumber : List Char
  driverCode : List Char
deriving DecidableEq

/-- `DriveRecord` (App.tsx:23-37).  `dailyDistance` 일일주행거리 and
`totalDistance` 누적주행거리 are the two optional first-record fields;
`timestamp` 정보발생일시, `speed` 차량속도, `rpm` 분당엔진회전수,
`brake` 브레이크신호, `coordX` X좌표, `coordY` Y좌표, `heading` GPS방위각,
`accelVx` 가속도ΔVx, `accelVy` 가속도ΔVy, `statusCode` 기기및통신상태코드. -/
structure DriveRecord where
  id : Nat
  dailyDistance : Option (List Char)
  totalDistance : Option (List Char)
  timestamp : List Char
  speed : List Char
  rpm : List Char
  brake : List Char
  coordX : List Char
  coordY : List Char
  heading : List Char
  accelVx : List Char
  accelVy : List Char
  statusCode : List Char
deriving DecidableEq

/-- `parseFixedPositionData` (App.tsx:390-418): walk `vehicleInfoFields`
from cursor 0, slicing each field's declared length and applying its
`format` when present (자동차유형 has none and is stored verbatim); return
the parsed header and the buffer after the 76 consumed characters.  The
source threads a running `pos` over the schema list; the cumulative
offsets 0, 20, 37, 39, 48, 58 are written out here. -/
def parseFixedPositionData (data : List Char) : VehicleInfo × List Char :=
  ({ deviceModelName := stripHashTrim (slice data 0 20)
     chassisNumber := stripHashTrim (slice data 20 17)
     vehicleType := slice data 37 2
     plateNumber := stripHashTrim (slice data 39 9)
     operatorRegNumber := formatRegNumber (slice data 48 10)
     driverCode := stripHashTrim (slice data 58 18) },
   data.drop vehicleInfoLength)

/-- `parseDriveRecord` (App.tsx:421-452): when `isFirstRecord` is set, first
consume 4 + 7 characters as the two distance fields, so every subsequent
per-sample field is read at its schema offset shifted by 11; otherwise the
per-sample fields start at offset 0.  The cumulative schema offsets are
0, 14, 17, 21, 22, 31, 40, 43, 49, 55. -/
def parseDriveRecord (data : List Char) (id : Nat) (isFirstRecord : Bool) : DriveRecord :=
  let base := if isFirstRecord then 11 else 0
  { id := id
    dailyDistance := if isFirstRecord then some (formatKm (slice data 0 4)) else none
    totalDistance := if isFirstRecord then some (formatKm (slice data 4 7)) else none
    timestamp := formatTimestamp (slice data base 14)
    speed := formatSpeed (slice data (base + 14) 3)
    rpm := formatRpm (slice data (base + 17) 4)
    brake := formatBrake (slice data (base + 21) 1)
    coordX := formatCoordX (slice data (base + 22) 9)
    coordY := formatCoordY (slice data (base + 31) 9)
    heading := formatHeading (slice data (base + 40) 3)
    accelVx := formatAccelVx (slice data (base + 43) 6)
    accelVy := formatAccelVy (slice data (base + 49) 6)
    statusCode := slice data (base + 55) 2 }

/-- The per-field overwrite applied to the first five records
(App.tsx:579-594): every `driveRecordFields` entry is re-read from the
record's buffer at offset 0 and re-formatted, replacing the stored value.
The two distance fields are not in the schema and are untouched. -/
def overwriteSampleFields (r : DriveRecord) (recordData : List Char) : DriveRecord :=
  { r with
    timestamp := formatTimestamp (slice recordData 0 14)
    speed := formatSpeed (slice recordData 14 3)
    rpm := formatRpm (slice recordData 17 4)
    brake := formatBrake (slice recordData 21 1)
    coordX := formatCoordX (slice recordData 22 9)
    coordY := formatCoordY (slice recordData 31 9)
    heading := formatHeading (slice recordData 40 3)
    accelVx := formatAccelVx (slice recordData 43 6)
    accelVy := formatAccelVy (slice recordData 49 6)
    statusCode := slice recordData 55 2 }

/-- The body of one iteration of the sample loop (the `try` block at
App.tsx:539-596, minus the `console.log` calls): parse the record (with
the first-record flag when `count = 1`), overwrite the two distance fields
of record 1 with the values parsed from the 11-character distance run
(App.tsx:573-576), and re-parse every per-sample field at offset 0 for the
first five records (App.tsx:579-594). -/
def recordBody (dailyRaw totalRaw : List Char) (count : Nat) (recordData : List Char) :
    DriveRecord :=
  let r0 := parseDriveRecord recordData count (count = 1)
  let r1 :=
    if count = 1 then
      { r0 with
        dailyDistance := some (formatKm dailyRaw)
        totalDistance := some (formatKm totalRaw) }
    else r0
  if count ≤ 5 then overwriteSampleFields r1 recordData else r1

/-- One stride of the sample region: the 57 characters starting at
`position = 57 * k`. -/
def stride (data : List Char) (k : Nat) : List Char :=
  slice data (driveRecordLength * k) driveRecordLength

/-- The `while` loop of `parseFile` (App.tsx:532-615) with the body of the
`try` abstracted as a fallible function `body` (`none` models the body
raising an exception partway, after the `recordCount++` that is its first
statement).  Mirrors the source exactly: the guard requires a full stride
to remain, the slice's length is re-checked, `recordCount` advances with
every attempted record, a successful body's record is pushed, a failure is
only logged (`console.error`, App.tsx:598) — nothing is recorded and the
loop advances to the next stride.  Structural on a fuel argument;
`data.length + 1` iterations always suffice since each one consumes 57
characters. -/
def parseLoopGo (body : Nat → List Char → Option DriveRecord) (data : List Char) :
    Nat → Nat → Nat → List DriveRecord
  | 0, _, _ => []
  | fuel + 1, position, recordCount =>
    if position + driveRecordLength ≤ data.length then
      let recordData := slice data position driveRecordLength
      if recordData.length = driveRecordLength then
        let newCount := recordCount + 1
        match body newCount recordData with
        | some r => r :: parseLoopGo body data fuel (position + driveRecordLength) newCount
        | none => parseLoopGo body data fuel (position + driveRecordLength) newCount
      else parseLoopGo body data fuel (position + driveRecordLength) recordCount
    else []

/-- The sample loop over a fallible per-record body. -/
def parseLoopWith (body : Nat → List Char → Option DriveRecord) (data : List Char) :
    List DriveRecord :=
  parseLoopGo body data (data.length + 1) 0 0

/-- The actual sample loop of `parseFile`: the body is `recordBody`, which
is total (every JavaScript operation it performs returns a value; parse
failures yield `NaN`, which the `|| 0` fallbacks turn into `0`), so the
`catch` path is never taken. -/
def parseLoop (dailyRaw totalRaw data : List Char) : List DriveRecord :=
  parseLoopWith (fun count recordData => some (recordBody dailyRaw totalRaw count recordData)) data

/-- The state `parseFile` publishes on a successful run: the header
(`setVehicleInfo`, App.tsx:490), the record list (`setDriveRecords`,
App.tsx:619) and the banner error set exactly when zero records were
parsed (App.tsx:621-623). -/
structure DecodeResult where
  vehicleInfo : VehicleInfo
  records : List DriveRecord
  error : Option (List Char)
deriving DecidableEq

/-- The zero-records banner `'파싱된 운행 기록이 없습니다. 파일 형식을 확인해주세요.'`. -/
def noRecordsMsg : List Char := "파싱된 운행 기록이 없습니다. 파일 형식을 확인해주세요.".toList

/-- The fatal empty-input message `'파일이 비어 있습니다.'` (App.tsx:473). -/
def emptyFileMsg : List Char := "파일이 비어 있습니다.".toList

/-- Decoding of a normalised buffer (App.tsx:487-623): parse the header,
then — only when at least the 11-character distance run remains — slice
daily (4) and cumulative (7) distance, drop those 11 characters and run
the sample loop over the rest. -/
def decodeContent (content : List Char) : DecodeResult :=
  let parsed := parseFixedPositionData content
  let remainingData := parsed.2
  let records :=
    if 4 + 7 ≤ remainingData.length then
      parseLoop (slice remainingData 0 4) (slice remainingData 4 7) (remainingData.drop (4 + 7))
    else []
  { vehicleInfo := parsed.1
    records := records
    error := if records = [] then some noRecordsMsg else none }

/-- The outcome of `parseFile` (App.tsx:454-635): a buffer that is empty or
whitespace-only throws `파일이 비어 있습니다.` before any slicing (the
outer `catch` publishes it as the sole result — no header, no records);
otherwise line terminators are normalised, the buffer trimmed, and the
decode runs. -/
inductive ParseOutcome where
  | fatalInput : List Char → ParseOutcome
  | ok : DecodeResult → ParseOutcome
deriving DecidableEq

/-- `parseFile` from the decoded text buffer (App.tsx:469-623). -/
def parseFile (text : List Char) : ParseOutcome :=
  if jsTrim text = [] then .fatalInput emptyFileMsg
  else .ok (decodeContent (jsTrim (replaceCRLF text)))

/-- The 4-character daily-distance run of a buffer: the first 4 characters
after the 76-character header (App.tsx:504). -/
def dailyRawOf (content : List Char) : List Char :=
  slice (content.drop vehicleInfoLength) 0 4

/-- The 7-character cumulative-distance run: characters 4..10 after the
header (App.tsx:505-508). -/
def totalRawOf (content : List Char) : List Char :=
  slice (content.drop vehicleInfoLength) 4 7

/-- The sample region: everything after the header and the 11-character
distance run (App.tsx:518). -/
def recordsDataOf (content : List Char) : List Char :=
  (content.drop vehicleInfoLength).drop 11

/-!
## Claim-side formulations and concrete inputs used by the theorems
-/

/-- A single parse of the sample schema at the correct offsets: record `k`
(0-based) is `parseDriveRecord` of stride `k` with the first-record flag
off — i.e. every per-sample field read at its unshifted schema offset —
with the two distance fields (from the 11-character distance run) attached
to record 1 only.  This is the claim-side description of what the final
stored record should be. -/
def singleCleanParse (dailyRaw totalRaw : List Char) (k : Nat) (recordData : List Char) :
    DriveRecord :=
  let r := parseDriveRecord recordData (k + 1) false
  if k = 0 then
    { r with
      dailyDistance := some (formatKm dailyRaw)
      totalDistance := some (formatKm totalRaw) }
  else r

/-- The timestamp transform as the claim words it: split the 14 characters
into 2-character components, prefix the year with `20`, keep each
component only when its integer value lies in the stated range (month in
[1,12], day in [1,31], hour below 24, minute and second below 60 —
a failed parse counts as out of range), clamping to `01` / `00` otherwise,
and never clamping the fraction. -/
def timestampClaim (v : List Char) : List Char :=
  let comp (i : Nat) : List Char := slice v (2 * i) 2
  let month := if cmpSome (parseIntJS (comp 1)) (fun n => 1 ≤ n ∧ n ≤ 12) then comp 1 else '0' :: ['1']
  let day := if cmpSome (parseIntJS (comp 2)) (fun n => 1 ≤ n ∧ n ≤ 31) then comp 2 else '0' :: ['1']
  let hour := if cmpSome (parseIntJS (comp 3)) (fun n => n < 24) then comp 3 else '0' :: ['0']
  let minute := if cmpSome (parseIntJS (comp 4)) (fun n => n < 60) then comp 4 else '0' :: ['0']
  let second := if cmpSome (parseIntJS (comp 5)) (fun n => n < 60) then comp 5 else '0' :: ['0']
  '2' :: '0' :: comp 0 ++ '-' :: month ++ '-' :: day ++
    ' ' :: hour ++ ':' :: minute ++ ':' :: second ++ '.' :: comp 6

/-- The coordinate value as the claim words it: integer parse divided by
1 000 000 (0 on failure); when the magnitude exceeds `bound`, re-derived
as the integer parse of the first `k` characters divided by 10. -/
def coordClaimValue (v : List Char) (bound : ℚ) (k : Nat) : ℚ :=
  let c := orZeroQ ((parseIntJS v).map (fun n => (n : ℚ) / 1000000))
  if bound < |c| then orZeroQ ((parseIntJS (v.take k)).map (fun n => (n : ℚ) / 10)) else c

/-- A per-record body that raises on the first record and parses every
other record exactly as the decoder does: used to exhibit what the sample
loop's `catch` does with a failure. -/
def bodyFailFirst (count : Nat) (recordData : List Char) : Option DriveRecord :=
  if count = 1 then none else some (recordBody [] [] count recordData)

/-- A 76-character header whose 자동차유형 (vehicle-type) slice, characters
37..38, is `1#`: `#` is the device's padding/terminator character. -/
def vtypeHashHeader : List Char :=
  List.replicate 37 '0' ++ '1' :: '#' :: List.replicate 37 '0'

/-- Header + distance run + one full sample stride whose status-code slice
(the final 2 characters) is `XY`. -/
def statusWitnessBuf : List Char :=
  List.replicate 87 '0' ++ List.replicate 55 '0' ++ 'X' :: ['Y']

/-- Header (76 × `H`), distance run `1234` / `5678901`, and one full sample
stride with distinctive field values — the misaligned first-record parse
of this stride differs from the straight parse on every field. -/
def cleanParseWitnessBuf : List Char :=
  List.replicate 76 'H' ++ ("1234".toList) ++ ("5678901".toList) ++
    ("25011100000000".toList) ++ ("060".toList) ++ ("1500".toList) ++ ("1".toList) ++
    ("127123456".toList) ++ ("037555555".toList) ++ ("090".toList) ++
    ("-00030".toList) ++ ("000300".toList) ++ ("7F".toList)

/-!
## Helper lemmas
-/

@[simp] lemma driveRecordLength_eq : driveRecordLength = 57 := rfl

@[simp] lemma vehicleInfoLength_eq : vehicleInfoLength = 76 := rfl

lemma slice_length_of_le {s : List Char} {pos len : Nat} (h : pos + len ≤ s.length) :
    (slice s pos len).length = len := by
  simp only [slice, List.length_take, List.length_drop]
  omega

/-- Composing two slices: an inner slice that stays inside the outer one
reads the same characters as a single slice of the base buffer. -/
lemma slice_slice {s : List Char} {p1 l1 p2 l2 : Nat} (h : p2 + l2 ≤ l1) :
    slice (slice s p1 l1) p2 l2 = slice s (p1 + p2) l2 := by
  simp only [slice, List.drop_take, List.take_take, List.drop_drop]
  have hmin : l2 ⊓ (l1 - p2) = l2 := by omega
  rw [hmin]

lemma slice_drop {s : List Char} {d p l : Nat} :
    slice (s.drop d) p l = slice s (d + p) l := by
  simp [slice, List.drop_drop]

/-- One unfolding of the sample loop over positions `57 * k, 57 * (k + 1), …`:
with enough fuel it visits exactly the strides `k, k + 1, …, n - 1`
(`n = ⌊length / 57⌋`), attempts the body on each with ordinal `j + 1`, and
keeps the successes in order. -/
lemma parseLoopGo_eq (body : Nat → List Char → Option DriveRecord) (data : List Char) :
    ∀ fuel k, data.length / 57 - k < fuel →
      parseLoopGo body data fuel (57 * k) k =
        (List.range' k (data.length / 57 - k)).filterMap
          (fun j => body (j + 1) (stride data j)) := by
  intro fuel
  induction fuel with
  | zero => intro k h; omega
  | succ fuel ih =>
    intro k h
    by_cases hk : k + 1 ≤ data.length / 57
    · have hg : 57 * k + 57 ≤ data.length := by
        have := (Nat.le_div_iff_mul_le (k := 57) (by norm_num)).1 hk
        omega
      have hn : data.length / 57 - k = (data.length / 57 - (k + 1)) + 1 := by omega
      rw [parseLoopGo]
      simp only [driveRecordLength_eq]
      rw [if_pos hg, if_pos (slice_length_of_le hg)]
      have hpos : 57 * k + 57 = 57 * (k + 1) := by ring
      rw [hn, List.range'_succ]
      have hstride : slice data (57 * k) 57 = stride data k := by
        simp [stride]
      rw [List.filterMap_cons]
      cases hb : body (k + 1) (stride data k) with
      | none =>
        simp only [hstride, hb, hpos]
        exact ih (k + 1) (by omega)
      | some r =>
        simp only [hstride, hb, hpos]
        exact congrArg (r :: ·) (ih (k + 1) (by omega))
    · have hg : ¬ 57 * k + 57 ≤ data.length := by
        intro hc
        exact hk ((Nat.le_div_iff_mul_le (k := 57) (by norm_num)).2 (by omega))
      have hn : data.length / 57 - k = 0 := by omega
      rw [parseLoopGo]
      simp only [driveRecordLength_eq]
      rw [if_neg hg, hn]
      simp

/-- The sample loop visits every full stride in physical order, attempting
the per-record body with ordinal index `k + 1` on stride `k`, and the
result is exactly the list of successes; a failing record leaves no trace
and does not stop the loop. -/
lemma parseLoopWith_eq (body : Nat → List Char → Option DriveRecord) (data : List Char) :
    parseLoopWith body data =
      (List.range (data.length / 57)).filterMap (fun j => body (j + 1) (stride data j)) := by
  have h := parseLoopGo_eq body data (data.length + 1) 0
    (by have := Nat.div_le_self data.length 57; omega)
  simpa [parseLoopWith, List.range_eq_range'] using h

/-- The actual (total-bodied) sample loop as a map over the strides. -/
lemma parseLoop_eq (dailyRaw totalRaw data : List Char) :
    parseLoop dailyRaw totalRaw data =
      (List.range (data.length / 57)).map
        (fun j => recordBody dailyRaw totalRaw (j + 1) (stride data j)) := by
  rw [parseLoop, parseLoopWith_eq]
  exact List.filterMap_eq_map _ ▸ rfl

/-- The record list produced by a decode, in terms of the three regions of
the buffer. -/
lemma decode_records (content : List Char) :
    (decodeContent content).records =
      if 11 ≤ content.length - 76 then
        parseLoop (dailyRawOf content) (totalRawOf content) (recordsDataOf content)
      else [] := by
  simp [decodeContent, parseFixedPositionData, dailyRawOf, totalRawOf, recordsDataOf]

lemma recordsDataOf_length (content : List Char) :
    (recordsDataOf content).length = content.length - 87 := by
  simp only [recordsDataOf, List.length_drop, vehicleInfoLength_eq]
  omega

/-- The body of the loop always returns a record whose `id` is the ordinal
it was called with. -/
lemma recordBody_id (dailyRaw totalRaw : List Char) (count : Nat) (recordData : List Char) :
    (recordBody dailyRaw totalRaw count recordData).id = count := by
  rw [recordBody]
  split <;> split <;> rfl

/-- Every decode's record list has the ids `1, 2, …, n` in order. -/
lemma decode_map_id (content : List Char) :
    ((decodeContent content).records.map fun r => r.id) =
      List.range' 1 (decodeContent content).records.length := by
  rw [decode_records]
  split
  · rw [parseLoop_eq]
    simp [List.map_map, Function.comp, recordBody_id, List.range'_eq_map_range, Nat.add_comm]
  · rfl

/-- The number of decoded records, for every buffer: `⌊(len − 87) / 57⌋`
(the header consumes 76 characters and the distance run 11 more; Nat
subtraction makes this 0 for buffers shorter than 87). -/
lemma decode_records_length (content : List Char) :
    (decodeContent content).records.length = (content.length - 87) / 57 := by
  rw [decode_records]
  split
  · rw [parseLoop_eq]
    simp [recordsDataOf_length]
  · next h =>
    have : content.length - 87 = 0 := by omega
    simp [this]

/-- The final stored record for ordinal `k + 1` equals the claim-side single
clean parse: the misaligned first-record parse and the redundant
re-parses of records 2–5 are all overwritten by (or equal to) the straight
parse of the stride at offset 0. -/
lemma recordBody_eq_clean (dailyRaw totalRaw recordData : List Char) (k : Nat) :
    recordBody dailyRaw totalRaw (k + 1) recordData =
      singleCleanParse dailyRaw totalRaw k recordData := by
  rcases Nat.eq_zero_or_pos k with hk | hk
  · subst hk; rfl
  · have h1 : ¬ (k + 1 = 1) := by omega
    have h0 : ¬ (k = 0) := by omega
    by_cases h5 : k + 1 ≤ 5
    · simp only [recordBody, singleCleanParse, if_neg h1, if_neg h0, if_pos h5,
        decide_eq_false h1, parseDriveRecord, Bool.false_eq_true, overwriteSampleFields]
      simp
    · simp only [recordBody, singleCleanParse, if_neg h1, if_neg h0, if_neg h5,
        decide_eq_false h1]

/-- Element `k` of the decoded record list is the clean single parse of
stride `k`. -/
lemma decode_getElem (content : List Char) (k : Nat)
    (h : k < (decodeContent content).records.length) :
    (decodeContent content).records[k]? =
      some (singleCleanParse (dailyRawOf content) (totalRawOf content) k
        (stride (recordsDataOf content) k)) := by
  by_cases hg : 11 ≤ content.length - 76
  · rw [decode_records, if_pos hg] at h
    rw [decode_records, if_pos hg]
    rw [parseLoop_eq] at h ⊢
    rw [List.getElem?_map]
    have hk : k < (recordsDataOf content).length / 57 := by simpa using h
    rw [List.getElem?_range hk]
    simp [recordBody_eq_clean]
  · rw [decode_records, if_neg hg] at h
    simp at h

/-- The banner error is set exactly when the record list came out empty. -/
lemma decode_error (content : List Char) :
    (decodeContent content).error =
      if (decodeContent content).records = [] then some noRecordsMsg else none := rfl

/-!
## Claims
-/

/-- **C1.** For every decoded buffer, the telemetry samples appear in the
result in the input's physical order — element `k` of the list is produced
from stride `k` (see the per-index characterisation proved for C10) — and
each sample's `id` equals its 1-based position among the successfully
parsed samples: the ids are exactly `1, 2, …, n` in order.  Every
transform is total, so every full stride parses successfully and the
1-based position among successes coincides with the physical position. -/
theorem C1_sample_ids_equal_positions (content : List Char) :
    ((decodeContent content).records.map fun r => r.id) =
      List.range' 1 (decodeContent content).records.length :=
  decode_map_id content

/-- **C2 (amended).** A per-record exception is caught at the record level
and never propagated: the loop attempts the body on every full stride in
order, with the ordinal index advancing on every attempt (the source
increments `recordCount` before the fallible work), and the decode result
is exactly the list of successful records.  Nothing else is recorded: the
`catch` block only logs to the console, so a failed record leaves no trace
in the result — there is no errors sequence — and its ordinal index is
consumed. -/
theorem C2_failed_record_skipped_loop_continues
    (body : Nat → List Char → Option DriveRecord) (data : List Char) :
    parseLoopWith body data =
      (List.range (data.length / 57)).filterMap (fun j => body (j + 1) (stride data j)) :=
  parseLoopWith_eq body data

/-- **C2, counterexample to the claim as stated.**  Run the sample loop on a
buffer of exactly two strides with a body that fails on the first record
and parses the second exactly as the decoder would.  The complete output
is one bare record with id 2: no `DecodeError` tagged with the failed
record's byte offset and ordinal appears anywhere — the result carries no
errors sequence at all — and the failed attempt consumed ordinal 1. -/
theorem C2_counterexample :
    (parseLoopWith bodyFailFirst (List.replicate 114 '0')).map (fun r => r.id) = [2] := by
  with_unfolding_all decide

/-- **C3 (amended).** Between the 76-character header and the sample strides
the decoder consumes an 11-character distance run, so: a buffer of
76 + 11 + 2·57 = 201 characters yields 2 samples with ids 1 and 2; a
buffer of 76 + 11 + 57 + 10 = 154 characters yields 1 sample and the 10
trailing characters are dropped silently (no error is set); and in
general the sample count is `⌊(len − 87) / 57⌋` — the number of whole
strides in the post-header-and-distance-run data, not the post-header
data. -/
theorem C3_amended_sample_counts (content : List Char) :
    (content.length = 201 →
      (decodeContent content).records.length = 2 ∧
        ((decodeContent content).records.map fun r => r.id) = [1, 2]) ∧
    (content.length = 154 →
      (decodeContent content).records.length = 1 ∧ (decodeContent content).error = none) ∧
    (decodeContent content).records.length = (content.length - 87) / 57 := by
  refine ⟨fun h => ?_, fun h => ?_, decode_records_length content⟩
  · have hl : (decodeContent content).records.length = 2 := by
      rw [decode_records_length, h]
    exact ⟨hl, by rw [decode_map_id, hl]; rfl⟩
  · have hl : (decodeContent content).records.length = 1 := by
      rw [decode_records_length, h]
    refine ⟨hl, ?_⟩
    rw [decode_error, if_neg]
    intro habs
    rw [habs] at hl
    simp at hl

/-- **C3, counterexample to the claim as stated.**  A buffer of a
76-character header followed by exactly 2 full 57-character strides (190
characters) decodes to 1 sample, not 2 — the first 11 post-header
characters are eaten by the distance run.  A header plus one full stride
plus 10 trailing characters (143 characters) decodes to 0 samples, not 1,
and sets the "no records parsed" error rather than dropping the tail
silently. -/
theorem C3_counterexample :
    ((decodeContent (List.replicate 190 '0')).records).length = 1 ∧
    ((decodeContent (List.replicate 143 '0')).records).length = 0 ∧
    (decodeContent (List.replicate 143 '0')).error = some noRecordsMsg :=
  ⟨by with_unfolding_all decide, by with_unfolding_all decide, by with_unfolding_all rfl⟩

/-- **C3, witness.** The amended counts at concrete buffers of 201 and 154
zeros. -/
theorem C3_witness :
    (List.replicate 201 '0').length = 201 ∧
    ((decodeContent (List.replicate 201 '0')).records.length = 2 ∧
      ((decodeContent (List.replicate 201 '0')).records.map fun r => r.id) = [1, 2]) ∧
    (List.replicate 154 '0').length = 154 ∧
    ((decodeContent (List.replicate 154 '0')).records.length = 1 ∧
      (decodeContent (List.replicate 154 '0')).error = none) :=
  ⟨by decide, (C3_amended_sample_counts _).1 (by decide), by decide,
    ((C3_amended_sample_counts _).2).1 (by decide)⟩

/-- **C7.** An input that is empty or contains only whitespace fails with
the fatal input error `파일이 비어 있습니다.` before any header or sample
slicing: the outcome carries no header and no samples (the `fatalInput`
constructor holds nothing but the message), never a populated
`DecodeResult`. -/
theorem C7_empty_input_is_fatal (text : List Char)
    (h : ∀ c ∈ text, jsWhitespace c = true) :
    parseFile text = .fatalInput emptyFileMsg := by
  have h1 : text.dropWhile jsWhitespace = [] := List.dropWhile_eq_nil_iff.2 h
  have ht : jsTrim text = [] := by simp [jsTrim, h1]
  rw [parseFile, if_pos ht]

/-- **C7, witness.** The empty buffer and a whitespace-only buffer. -/
theorem C7_witness :
    (∀ c ∈ ("  \n".toList), jsWhitespace c = true) ∧
    parseFile ("  \n".toList) = .fatalInput emptyFileMsg ∧
    parseFile [] = .fatalInput emptyFileMsg :=
  ⟨by decide, C7_empty_input_is_fatal _ (by decide), C7_empty_input_is_fatal [] (by decide)⟩

lemma recordsDataOf_eq (content : List Char) : recordsDataOf content = content.drop 87 := by
  simp [recordsDataOf, List.drop_drop]

lemma singleCleanParse_statusCode (dailyRaw totalRaw recordData : List Char) (k : Nat) :
    (singleCleanParse dailyRaw totalRaw k recordData).statusCode = slice recordData 55 2 := by
  rw [singleCleanParse]
  split <;> rfl

/-- **C9.** Every field transform is total — the JavaScript parses return
`NaN` rather than throwing, and the `|| 0` fallbacks substitute the
default 0 — so the per-record `catch` is unreachable and every full
57-character stride produces exactly one sample in the result: the loop's
output length is the number of whole strides.  The fallback conjuncts
exhibit the parse-failure defaults for three of the transforms. -/
theorem C9_transforms_total_every_stride_sampled :
    (∀ dailyRaw totalRaw data : List Char,
      (parseLoop dailyRaw totalRaw data).length = data.length / driveRecordLength) ∧
    (∀ v, parseIntJS v = none → formatSpeed v = ("0 km/h".toList)) ∧
    (∀ v, parseIntJS v = none → formatRpm v = ("0 RPM".toList)) ∧
    (∀ v, parseIntJS v = none → formatHeading v = ("0°".toList)) := by
  refine ⟨fun dailyRaw totalRaw data => ?_, fun v h => ?_, fun v h => ?_, fun v h => ?_⟩
  · rw [parseLoop_eq]
    simp
  · simp only [formatSpeed, h, orZeroInt, Option.getD_none]
    rw [if_neg (by norm_num)]
    rfl
  · simp only [formatRpm, h, orZeroInt, Option.getD_none]
    rw [if_neg (by norm_num)]
    rfl
  · simp only [formatHeading, h, orZeroInt, Option.getD_none]
    rfl

/-- **C9, witness.** A non-numeric slice falls back to the 0 defaults. -/
theorem C9_witness :
    parseIntJS ("abc".toList) = none ∧
    formatSpeed ("abc".toList) = ("0 km/h".toList) ∧
    formatRpm ("abcd".toList) = ("0 RPM".toList) ∧
    formatHeading ("xyz".toList) = ("0°".toList) :=
  ⟨by decide,
    C9_transforms_total_every_stride_sampled.2.1 _ (by decide),
    C9_transforms_total_every_stride_sampled.2.2.1 _ (by decide),
    C9_transforms_total_every_stride_sampled.2.2.2 _ (by decide)⟩

/-- **C10.** The first sample's per-sample fields are parsed twice: once by
`parseDriveRecord` with the first-record flag set — which reads them at
offsets shifted by the 11-character distance run inside the 57-character
stride (a misaligned parse, since the stride no longer contains that run)
— and once by the overwrite loop applied to the first five records, which
re-reads every schema field at offset 0.  The final stored record, for
every index, equals the single clean parse of the stride at the correct
offsets (with the distance fields of record 1 taken from the distance
run), so the misaligned intermediate never reaches the output. -/
theorem C10_final_record_is_single_clean_parse (content : List Char) (k : Nat)
    (h : k < (decodeContent content).records.length) :
    (decodeContent content).records[k]? =
      some (singleCleanParse (dailyRawOf content) (totalRawOf content) k
        (stride (recordsDataOf content) k)) :=
  decode_getElem content k h

/-- **C10, witness.** A buffer with one distinctive stride: the decoded
record equals the clean parse, while the misaligned first-record parse of
the same stride differs from the straight parse. -/
theorem C10_witness :
    (0 < (decodeContent cleanParseWitnessBuf).records.length ∧
      (decodeContent cleanParseWitnessBuf).records[0]? =
        some (singleCleanParse (dailyRawOf cleanParseWitnessBuf)
          (totalRawOf cleanParseWitnessBuf) 0 (stride (recordsDataOf cleanParseWitnessBuf) 0))) ∧
    parseDriveRecord (stride (recordsDataOf cleanParseWitnessBuf) 0) 1 true ≠
      parseDriveRecord (stride (recordsDataOf cleanParseWitnessBuf) 0) 1 false :=
  ⟨⟨by with_unfolding_all decide,
      C10_final_record_is_single_clean_parse cleanParseWitnessBuf 0 (by with_unfolding_all decide)⟩,
    by with_unfolding_all decide⟩

/-- **C8 (amended).** A field descriptor with no transform — the
vehicle-type code in the header and the status code in each sample — is
stored verbatim: the decoded value is exactly the raw fixed-width slice of
the buffer, with no trimming of `#` padding or whitespace. -/
theorem C8_no_transform_fields_verbatim (content : List Char) (k : Nat)
    (h : k < (decodeContent content).records.length) :
    (decodeContent content).vehicleInfo.vehicleType = slice content 37 2 ∧
    ((decodeContent content).records[k]?.map fun r => r.statusCode) =
      some (slice content (87 + 57 * k + 55) 2) := by
  constructor
  · rfl
  · rw [decode_getElem content k h]
    simp only [Option.map_some']
    rw [singleCleanParse_statusCode]
    rw [stride, driveRecordLength_eq, slice_slice (by omega), recordsDataOf_eq, slice_drop]
    have harith : 87 + (57 * k + 55) = 87 + 57 * k + 55 := by ring
    rw [harith]

/-- **C8, counterexample to the claim as stated.**  A header whose
vehicle-type slice is `1#` decodes to the verbatim `1#`, not to the
`#`-trimmed `1` the claim requires. -/
theorem C8_counterexample :
    (decodeContent vtypeHashHeader).vehicleInfo.vehicleType = '1' :: ['#'] ∧
    stripHashTrim ('1' :: ['#']) = ['1'] := by
  constructor
  · rfl
  · decide

/-- **C8, witness.** A buffer whose only stride ends in `XY`: the decoded
status code is that verbatim slice. -/
theorem C8_witness :
    (0 < (decodeContent statusWitnessBuf).records.length ∧
      ((decodeContent statusWitnessBuf).records[0]?.map fun r => r.statusCode) =
        some (slice statusWitnessBuf (87 + 57 * 0 + 55) 2)) ∧
    slice statusWitnessBuf (87 + 57 * 0 + 55) 2 = 'X' :: ['Y'] :=
  ⟨⟨by with_unfolding_all decide,
      (C8_no_transform_fields_verbatim statusWitnessBuf 0 (by with_unfolding_all decide)).2⟩,
    by decide⟩

lemma cmpSome_congr (o : Option Int) (p q : Int → Prop) [DecidablePred p] [DecidablePred q]
    (h : ∀ n, p n ↔ q n) : cmpSome o p = cmpSome o q := by
  cases o with
  | none => rfl
  | some m => simp [cmpSome, h m]

lemma slice_zero (v : List Char) (k : Nat) : slice v 0 k = v.take k := by
  simp [slice]

/-- **C4.** On every 14-character input, the timestamp transform splits into
2-character year/month/day/hour/minute/second/fraction components,
prefixes the year with `20`, clamps each component independently — month
to `01` unless its value is in [1,12], day to `01` unless in [1,31], hour
to `00` unless below 24, minute and second to `00` unless below 60, the
fraction never — and renders `YYYY-MM-DD hh:mm:ss.ff`; every other length
passes through unchanged. -/
theorem C4_timestamp_clamped_format (v : List Char) :
    (v.length = 14 → formatTimestamp v = timestampClaim v) ∧
    (v.length ≠ 14 → formatTimestamp v = v) := by
  constructor
  · intro h
    have hm : cmpSome (parseIntJS (slice v 2 2)) (fun m => 0 < m ∧ m ≤ 12) =
        cmpSome (parseIntJS (slice v 2 2)) (fun n => 1 ≤ n ∧ n ≤ 12) :=
      cmpSome_congr _ _ _ (fun n => by omega)
    have hd : cmpSome (parseIntJS (slice v 4 2)) (fun d => 0 < d ∧ d ≤ 31) =
        cmpSome (parseIntJS (slice v 4 2)) (fun n => 1 ≤ n ∧ n ≤ 31) :=
      cmpSome_congr _ _ _ (fun n => by omega)
    simp only [formatTimestamp, timestampClaim, if_pos h]
    rw [hm, hd]
  · intro h
    rw [formatTimestamp, if_neg h]

/-- **C4, witness.** The two timestamps of the spec, and a non-14-length
passthrough. -/
theorem C4_witness :
    (("25011100000000".toList).length = 14 ∧
      formatTimestamp ("25011100000000".toList) = ("2025-01-11 00:00:00.00".toList)) ∧
    (("25991100000000".toList).length = 14 ∧
      formatTimestamp ("25991100000000".toList) = ("2025-01-11 00:00:00.00".toList)) ∧
    (("123".toList).length ≠ 14 ∧ formatTimestamp ("123".toList) = ("123".toList)) :=
  ⟨⟨by decide, by rw [(C4_timestamp_clamped_format _).1 (by decide)]; decide⟩,
    ⟨by decide, by rw [(C4_timestamp_clamped_format _).1 (by decide)]; decide⟩,
    ⟨by decide, (C4_timestamp_clamped_format _).2 (by decide)⟩⟩

/-- **C5.** For every 6-character acceleration input: a leading `-` makes
the output the negation of (the parse of the tail divided by 10) — this
branch takes precedence, so the magnitude-bound correction is never
applied to negative inputs; otherwise, when the parsed value divided by 10
has magnitude above 50, the value is re-derived from the first 2
characters divided by 10.  The result is rendered with exactly one decimal
place and ` m/s²`, and the ΔVy transform is identical to the ΔVx one.
The transform never inspects the input's length, so the property is proved
for every input — in particular every 6-character slice, and also the
spec's own example `-000300` (which is 7 characters long, one more than
the declared field width). -/
theorem C5_accel_sign_and_bound (v : List Char) :
    (v.head? = some '-' →
      formatAccelVx v =
        toFixedQ 1 (-(orZeroQ ((parseFloatJS (v.drop 1)).map fun q => q / 10))) ++
          (" m/s²".toList)) ∧
    (v.head? ≠ some '-' →
      50 < |orZeroQ ((parseFloatJS v).map fun q => q / 10)| →
      formatAccelVx v =
        toFixedQ 1 (orZeroQ ((parseFloatJS (v.take 2)).map fun q => q / 10)) ++
          (" m/s²".toList)) ∧
    formatAccelVy v = formatAccelVx v := by
  refine ⟨fun hs => ?_, fun hs hm => ?_, rfl⟩
  · simp only [formatAccelVx, if_pos hs]
    congr 2
    cases hp : parseFloatJS (v.drop 1) with
    | none => simp [orZeroQ, hp]
    | some q => simp [orZeroQ, hp, neg_div]
  · simp only [formatAccelVx, if_neg hs, if_pos hm, slice_zero]

/-- **C5, witness.** `-000300` renders as `-30.0 m/s²`; a negative input of
implausible magnitude (`-99999`, magnitude 9999.9) keeps its sign-branch
value and is not bound-corrected; and ΔVy agrees with ΔVx. -/
theorem C5_witness :
    formatAccelVx ("-000300".toList) = ("-30.0 m/s²".toList) ∧
    formatAccelVx ("-00030".toList) = ("-3.0 m/s²".toList) ∧
    formatAccelVx ("-99999".toList) = ("-9999.9 m/s²".toList) ∧
    formatAccelVy ("-000300".toList) = formatAccelVx ("-000300".toList) :=
  ⟨by rw [(C5_accel_sign_and_bound _).1 (by decide)]; with_unfolding_all decide,
    by rw [(C5_accel_sign_and_bound _).1 (by decide)]; with_unfolding_all decide,
    by rw [(C5_accel_sign_and_bound _).1 (by decide)]; with_unfolding_all decide,
    (C5_accel_sign_and_bound _).2.2⟩

/-- **C6.** For every 9-character coordinate input, longitude is the integer
parse divided by 1 000 000 (0 on failure), re-derived from the first 3
characters divided by 10 when the magnitude exceeds 180; latitude uses the
bound 90 and the first 2 characters; both render with exactly 6 decimal
places. -/
theorem C6_coord_bounds (v : List Char) (_h : v.length = 9) :
    formatCoordX v = toFixedQ 6 (coordClaimValue v 180 3) ∧
    formatCoordY v = toFixedQ 6 (coordClaimValue v 90 2) := by
  constructor
  · simp only [formatCoordX, coordClaimValue, slice_zero]
    congr 1
    refine if_congr ?_ rfl rfl
    rw [lt_abs]
    exact or_congr Iff.rfl ⟨fun hc => by linarith, fun hc => by linarith⟩
  · simp only [formatCoordY, coordClaimValue, slice_zero]
    congr 1
    refine if_congr ?_ rfl rfl
    rw [lt_abs]
    exact or_congr Iff.rfl ⟨fun hc => by linarith, fun hc => by linarith⟩

/-- **C6, witness.** Longitude `127123456` renders as `127.123456`; an
implausible longitude `999999999` falls back to `999`/10 = `99.9`. -/
theorem C6_witness :
    (("127123456".toList).length = 9 ∧
      formatCoordX ("127123456".toList) = ("127.123456".toList)) ∧
    formatCoordY ("037555555".toList) = ("37.555555".toList) ∧
    formatCoordX ("999999999".toList) = ("99.900000".toList) :=
  ⟨⟨by decide,
      by rw [(C6_coord_bounds _ (by decide)).1]; with_unfolding_all decide⟩,
    by rw [(C6_coord_bounds _ (by decide)).2]; with_unfolding_all decide,
    by rw [(C6_coord_bounds _ (by decide)).1]; with_unfolding_all decide⟩

end VehicleAnalytics

